import Mathlib

/-!
# Verification of the seL4 platform resource-lifecycle layer

A shallow embedding, in Lean 4, of the core data structures and operations of
the `axplat-aarch64-sel4` crate: the virtual frame allocator, the memory-space
region map and its address translations, the untyped-unit pool, the interrupt
registry, and the task construction/destruction protocols.  Each definition is
translated from the corresponding Rust function in `src/`; kernel calls and
other external effects are parameterised by their (externally decided)
results.  Machine integers are modelled as `Nat`: none of the embedded
arithmetic can overflow on the inputs considered, because the code only adds
page offsets to addresses well below `2^64`.
-/

/-- Constant `LARGE_PAGE_SIZE` from `mem.rs`: 2 MiB. -/
def LARGE_PAGE_SIZE : Nat := 0x200000

/-- Constant `PAGE_SIZE` from `mem.rs`: 4 KiB. -/
def PAGE_SIZE : Nat := 0x1000

/-!
## Virtual frame allocator (`mem.rs`, `VirtFrameAllocator`)

The Rust struct holds `current : usize`, `end : usize` and `recycled :
Vec<usize>`.  `Vec::push` appends at the back and `Vec::pop` removes from the
back; we model that stack with a Lean list whose *head* is the top of the
stack (`push` is cons, `pop` takes the head), which preserves the LIFO
discipline and membership exactly.  `end` is a Lean keyword, hence `end_`.
-/

structure VirtFrameAllocator where
  current : Nat
  end_ : Nat
  recycled : List Nat
  deriving Repr, DecidableEq

namespace VirtFrameAllocator

/-- Rust `VirtFrameAllocator::new()`.  The reserved range base and size come from
`axconfig` (external); they are parameters here. -/
def new (virt_frame_addr virt_frame_size : Nat) : VirtFrameAllocator :=
  { current := virt_frame_addr / PAGE_SIZE
    end_ := (virt_frame_addr + virt_frame_size) / PAGE_SIZE
    recycled := [] }

/-- Rust `VirtFrameAllocator::alloc()`: if `current == end`, it pops the recycled
stack (returning `None` when that is empty); otherwise it returns `current`
and bumps it. -/
def alloc (a : VirtFrameAllocator) : Option Nat × VirtFrameAllocator :=
  if a.current = a.end_ then
    match a.recycled with
    | vpn :: rest => (some vpn, { a with recycled := rest })
    | [] => (none, a)
  else
    (some a.current, { a with current := a.current + 1 })

/-- Rust `VirtFrameAllocator::dealloc(vpn)`: pushes `vpn` only when it is below
`current` and not already recycled. -/
def dealloc (a : VirtFrameAllocator) (vpn : Nat) : VirtFrameAllocator :=
  if vpn < a.current ∧ vpn ∉ a.recycled then
    { a with recycled := vpn :: a.recycled }
  else a

/-- The allocator invariant: recycled page numbers are pairwise distinct and
all strictly below `current`. -/
def Inv (a : VirtFrameAllocator) : Prop :=
  a.recycled.Nodup ∧ ∀ v ∈ a.recycled, v < a.current

/-- States reachable from `new` by any sequence of `alloc` and `dealloc`. -/
inductive Reachable : VirtFrameAllocator → Prop
  | init (base size : Nat) : Reachable (new base size)
  | step_alloc {a : VirtFrameAllocator} : Reachable a → Reachable (alloc a).2
  | step_dealloc {a : VirtFrameAllocator} (vpn : Nat) :
      Reachable a → Reachable (dealloc a vpn)

end VirtFrameAllocator

/-!
## Sorted association lists

Both `MemSpace.regions` and the two maps of `IrqCap` are Rust `BTreeMap`s.
We model a `BTreeMap<usize, V>` as a list of key-value pairs kept sorted by
ascending key, so that list order coincides with the map's iteration order.
-/

/-- Models `BTreeMap::insert`: insert sorted by key, replacing an existing binding. -/
def btreeInsert {α : Type} (k : Nat) (v : α) : List (Nat × α) → List (Nat × α)
  | [] => [(k, v)]
  | (k', v') :: rest =>
    if k < k' then (k, v) :: (k', v') :: rest
    else if k = k' then (k, v) :: rest
    else (k', v') :: btreeInsert k v rest

/-- Models `BTreeMap::get`: exact-key lookup. -/
def btreeGet {α : Type} (m : List (Nat × α)) (k : Nat) : Option α :=
  (m.find? (fun p => p.1 = k)).map Prod.snd

/-!
## Memory space region map (`mem.rs`, `MemSpace`)

`regions : BTreeMap<usize, RawRange>` maps a virtual start address to the
physical `(start, end)` range backing it.  The capability operations
(`frame_map`, `pt_map`) have no effect on the region map and the claims here
concern only the bookkeeping, so the state we embed is the map itself.  The
physical address of the first large page returned by
`mem_allocator.alloc_large_pages` is decided externally and is a parameter
`paddr`; the allocator's pages are physically contiguous by construction.
-/

/-- A region map: virtual start ↦ (physical start, physical end). -/
abbrev Regions := List (Nat × (Nat × Nat))

namespace MemSpace

/-- Rust `MemSpace::add_region(vaddr, paddr, size)`. -/
def add_region (regions : Regions) (vaddr paddr size : Nat) : Regions :=
  btreeInsert vaddr (paddr, paddr + size) regions

/-- Rust `MemSpace::map_area(vaddr, size)`.  `none` models an abort: the two
assertions (`vaddr` 2 MiB aligned, `size > 0`), and the `caps[0]` index,
which panics when `size / LARGE_PAGE_SIZE = 0`.  On success the code maps
`size / LARGE_PAGE_SIZE` large pages and records one combined region of
`total_size = (size / LARGE_PAGE_SIZE) * LARGE_PAGE_SIZE` bytes at `vaddr`,
anchored at the first page's physical address `paddr`. -/
def map_area (regions : Regions) (vaddr size paddr : Nat) : Option Regions :=
  if vaddr % LARGE_PAGE_SIZE = 0 ∧ 0 < size ∧ 0 < size / LARGE_PAGE_SIZE then
    some (add_region regions vaddr paddr (size / LARGE_PAGE_SIZE * LARGE_PAGE_SIZE))
  else
    none

/-- Rust `MemSpace::virt_to_phys(vaddr)`: floor `vaddr` to its 2 MiB boundary,
look that key up exactly, and translate by offset; identity fallback on a
miss. -/
def virt_to_phys (regions : Regions) (vaddr : Nat) : Nat :=
  let vstart := vaddr / LARGE_PAGE_SIZE * LARGE_PAGE_SIZE
  match btreeGet regions vstart with
  | some range => range.1 + (vaddr - vstart)
  | none => vaddr

/-- Rust `MemSpace::phys_to_virt(paddr)`: scan the regions in ascending key order
for the first physical range containing `paddr`; identity fallback on a
miss. -/
def phys_to_virt (regions : Regions) (paddr : Nat) : Nat :=
  match regions.find? (fun p => decide (p.2.1 ≤ paddr) && decide (paddr < p.2.2)) with
  | some (vstart, range) => vstart + (paddr - range.1)
  | none => paddr

end MemSpace

/-!
## Untyped pool (`utils/obj.rs`)

`RECYCLED_UNTYPED : Vec<Untyped>` is the recycle free list; capabilities are
modelled by their bit values (`Nat`).  As with the frame allocator, the Vec
stack is modelled head-first.  A fresh unit from
`OBJ_ALLOCATOR.alloc_untyped(ALLOC_SIZE_BITS)` is decided externally and is a
parameter `fresh`.
-/

/-- Constant `ALLOC_SIZE_BITS` from `obj.rs`: 21, i.e. 2 MiB units. -/
def ALLOC_SIZE_BITS : Nat := 21

/-- The pool state: the `RECYCLED_UNTYPED` free list, most recently recycled
unit first. -/
structure UntypedPool where
  recycled_untyped : List Nat
  deriving Repr, DecidableEq

/-- Rust `alloc_untyped_unit()`: pop the recycle list, falling back to the object
factory (`fresh`); the returned size is always `1 << ALLOC_SIZE_BITS`. -/
def alloc_untyped_unit (pool : UntypedPool) (fresh : Nat) :
    (Nat × Nat) × UntypedPool :=
  match pool.recycled_untyped with
  | c :: rest => ((c, 2 ^ ALLOC_SIZE_BITS), ⟨rest⟩)
  | [] => ((fresh, 2 ^ ALLOC_SIZE_BITS), pool)

/-- Rust `recycle_untyped_unit(cap)`: push the unit back unconditionally. -/
def recycle_untyped_unit (pool : UntypedPool) (cap : Nat) : UntypedPool :=
  ⟨cap :: pool.recycled_untyped⟩

/-!
## Kernel-call results

A fallible seL4 kernel call returns `sel4::Result<T> = Result<T, sel4::Error>`;
errors are modelled by a numeric code.  Code that applies `?` to such a result
propagates the error to its caller; code that applies `.unwrap()` aborts the
process on an error.  `Outcome` distinguishes the three observable endings.
-/

/-- The result of one kernel call, decided by the kernel (external). -/
inductive KRes (α : Type) where
  | ok (a : α)
  | err (e : Nat)
  deriving Repr, DecidableEq

/-- How a fallible operation of this layer ends: value returned, error
returned to the caller, or process abort (`unwrap`/`assert` failure). -/
inductive Outcome (α : Type) where
  | ok (a : α)
  | err (e : Nat)
  | panic
  deriving Repr, DecidableEq

/-!
## Interrupt registry (`irq.rs`)

`IrqCap` holds the global enable flag, the global notification and two
`BTreeMap`s keyed by IRQ number.  Slot allocation (`alloc_slot`) and the
kernel calls inside `register_sel4_irq` (`mint_to`,
`irq_handler_set_notification`, `irq_handler_ack`) are decided externally and
appear as parameters.  The `axplat::irq::HandlerTable` lives in the external
`axplat` crate; it is modelled from the spec below.
-/

/-- Constant `MAX_IRQ_COUNT` from `irq.rs`: 1024. -/
def MAX_IRQ_COUNT : Nat := 1024

/-- The mutable state of `IrqCap` relevant to registration. -/
structure IrqCap where
  enable : Bool
  irq_handlers : List (Nat × Nat)
  notifications : List (Nat × Nat)
  deriving Repr, DecidableEq

/-- External inputs to one `register_sel4_irq` call: the two fresh slots from
`alloc_slot`, and the kernel's verdict on each of the three kernel calls. -/
structure IrqEnv where
  notify_slot : Nat
  handler_slot : Nat
  mint_res : KRes Unit
  set_notification_res : KRes Unit
  ack_res : KRes Unit
  deriving Repr, DecidableEq

namespace IrqCap

/-- Rust `IrqCap::new()`: flag down, empty maps. -/
def new : IrqCap :=
  { enable := false, irq_handlers := [], notifications := [] }

/-- Rust `IrqCap::register_sel4_irq(idx)`: mint a badged alias of the global
notification into a fresh slot (`?`), record it, allocate an IRQ-handler
capability, bind it to the notification (`?`), acknowledge once (`?`), and
record the handler. -/
def register_sel4_irq (st : IrqCap) (idx : Nat) (env : IrqEnv) :
    KRes IrqCap :=
  match env.mint_res with
  | .err e => .err e
  | .ok _ =>
    let st1 := { st with notifications := btreeInsert idx env.notify_slot st.notifications }
    match env.set_notification_res with
    | .err e => .err e
    | .ok _ =>
      match env.ack_res with
      | .err e => .err e
      | .ok _ =>
        .ok { st1 with irq_handlers := btreeInsert idx env.handler_slot st1.irq_handlers }

/-- Rust `IrqCap::remove_sel4_irq(idx)`. -/
def remove_sel4_irq (st : IrqCap) (idx : Nat) : IrqCap :=
  { st with
    notifications := st.notifications.filter (fun p => p.1 ≠ idx)
    irq_handlers := st.irq_handlers.filter (fun p => p.1 ≠ idx) }

end IrqCap

/-- Rust `IrqIfImpl::set_enable(irq, enabled)`: when `enabled`, call
`register_sel4_irq(irq).unwrap()` — unconditionally, on any state; when
`!enabled`, log a warning and change nothing. -/
def set_enable (st : IrqCap) (irq : Nat) (enabled : Bool) (env : IrqEnv) :
    Outcome IrqCap :=
  if enabled then
    match st.register_sel4_irq irq env with
    | .ok st' => .ok st'
    | .err _ => .panic
  else
    .ok st

/-- Modelled from the spec: `axplat::irq::HandlerTable<MAX_IRQ_COUNT>` is an
external-crate bounded handler table; `register_handler(irq, h)` installs `h`
and returns `true` when the slot for `irq` is within bounds and unoccupied,
and otherwise returns `false` leaving the table unchanged.  Handlers are
modelled by numeric identifiers. -/
def register_handler (table : List (Nat × Nat)) (irq handler : Nat) :
    Bool × List (Nat × Nat) :=
  if irq < MAX_IRQ_COUNT ∧ btreeGet table irq = none then
    (true, btreeInsert irq handler table)
  else
    (false, table)

/-- Rust `IrqIfImpl::register(irq, handler)`: try the handler table first; on
success also enable the interrupt capability via
`register_sel4_irq(irq).unwrap()` and return `true`; on an occupied slot
return `false` and touch nothing. -/
def register (table : List (Nat × Nat)) (st : IrqCap) (irq handler : Nat)
    (env : IrqEnv) : Outcome (Bool × List (Nat × Nat) × IrqCap) :=
  match register_handler table irq handler with
  | (true, table') =>
    match st.register_sel4_irq irq env with
    | .ok st' => .ok (true, table', st')
    | .err _ => .panic
  | (false, _) => .ok (false, table, st)

/-!
## Task lifecycle (`utils/task.rs`, `Sel4Task`)

`Sel4Task::new` is a straight-line sequence of allocator and kernel calls.
The infallible allocator results (steps 1–4: the untyped unit, CNode, TCB and
endpoint capabilities) and the verdict of every fallible call are external
inputs collected in `NewEnv`.  Steps 5–7 (the two `copy`s and the `mint` into
the task's CNode) use `?`; steps 8–12 (`alloc_ipc_buffer`, `tcb_configure`,
`tcb_set_tls_base`, `tcb_set_sched_params`, `tcb_read_all_registers`,
`tcb_write_all_registers`) use `.unwrap()`.
-/

/-- The register file as far as `new` touches it: program counter, stack
pointer and general-purpose register 8 (the IPC-buffer address convention). -/
structure TaskRegs where
  pc : Nat
  sp : Nat
  x8 : Nat
  deriving Repr, DecidableEq

/-- External inputs to one `Sel4Task::new` call: the capabilities handed out
by the allocators and the kernel's verdict on each fallible call, in program
order. -/
structure NewEnv where
  untyped : Nat
  cnode : Nat
  tcb : Nat
  srv_ep : Nat
  copy_tcb_res : KRes Unit
  mint_parent_res : KRes Unit
  copy_srv_res : KRes Unit
  alloc_ipc_res : KRes (Nat × Nat)
  configure_res : KRes Unit
  set_tls_res : KRes Unit
  set_sched_res : KRes Unit
  read_regs_res : KRes TaskRegs
  write_regs_res : KRes Unit
  deriving Repr, DecidableEq

/-- The `Sel4Task` aggregate (capability fields as bit values; the `capset`
sub-allocator is identified by the untyped unit backing it). -/
structure Sel4Task where
  tcb : Nat
  cnode : Nat
  ep : Nat
  entry : Nat
  stack : Nat
  untyped : Nat
  ipc_buffer : Nat
  ipc_buffer_addr : Nat
  tid : Nat
  deriving Repr, DecidableEq

namespace Sel4Task

/-- Rust `Sel4Task::new(tid, entry, stack, priority, tls)`: `?` on steps 5–7
returns the kernel error to the caller; `.unwrap()` on steps 8–12 aborts. -/
def new (tid entry stack _priority _tls : Nat) (env : NewEnv) :
    Outcome (Sel4Task × TaskRegs) :=
  match env.copy_tcb_res with
  | .err e => .err e
  | .ok _ =>
  match env.mint_parent_res with
  | .err e => .err e
  | .ok _ =>
  match env.copy_srv_res with
  | .err e => .err e
  | .ok _ =>
  match env.alloc_ipc_res with
  | .err _ => .panic
  | .ok (virt, ipc_cap) =>
  match env.configure_res with
  | .err _ => .panic
  | .ok _ =>
  match env.set_tls_res with
  | .err _ => .panic
  | .ok _ =>
  match env.set_sched_res with
  | .err _ => .panic
  | .ok _ =>
  match env.read_regs_res with
  | .err _ => .panic
  | .ok regs =>
  match env.write_regs_res with
  | .err _ => .panic
  | .ok _ =>
    .ok ({ tcb := env.tcb
           cnode := env.cnode
           ep := env.srv_ep
           entry := entry
           stack := stack
           untyped := env.untyped
           ipc_buffer := ipc_cap
           ipc_buffer_addr := virt
           tid := tid },
         { regs with pc := entry, sp := stack, x8 := virt })

end Sel4Task

/-!
## Task destruction (`utils/task.rs`, `Sel4Task::exit`)

`exit` is observed through its trace of effects: the kernel revoke/delete
calls, the slot releases, the IPC-buffer virtual-page release and the untyped
recycle.  The kernel's verdict on each revoke/delete is external
(`ExitEnv`); every one is `.unwrap()`ed, so the first error aborts the
process with only the previously completed actions performed.
-/

/-- One observable effect of `Sel4Task::exit`. -/
inductive ExitAction where
  | revoke (cap : Nat)
  | delete (cap : Nat)
  | recycleSlot (cap : Nat)
  | deallocIpcBuffer (vpn : Nat)
  | recycleUntyped (cap : Nat)
  deriving Repr, DecidableEq

/-- The kernel's verdict on revoking / deleting each capability. -/
structure ExitEnv where
  revoke_res : Nat → KRes Unit
  delete_res : Nat → KRes Unit

/-- How `exit` ends: the full trace, or an abort (failed `unwrap`) after a
prefix of completed actions. -/
inductive ExitResult where
  | done (trace : List ExitAction)
  | aborted (trace : List ExitAction)
  deriving Repr, DecidableEq

/-- Rust `Sel4Task::exit()`: revoke then delete the TCB, CNode, endpoint and
IPC-buffer capabilities in that order (aborting at the first kernel error),
then release the four slots, return the IPC-buffer page
(`ipc_buffer_addr / PAGE_SIZE`) to the virtual frame allocator, and recycle
the untyped unit. -/
def Sel4Task.exit (t : Sel4Task) (env : ExitEnv) : ExitResult :=
  match env.revoke_res t.tcb with
  | .err _ => .aborted []
  | .ok _ =>
  match env.delete_res t.tcb with
  | .err _ => .aborted [.revoke t.tcb]
  | .ok _ =>
  match env.revoke_res t.cnode with
  | .err _ => .aborted [.revoke t.tcb, .delete t.tcb]
  | .ok _ =>
  match env.delete_res t.cnode with
  | .err _ => .aborted [.revoke t.tcb, .delete t.tcb, .revoke t.cnode]
  | .ok _ =>
  match env.revoke_res t.ep with
  | .err _ => .aborted [.revoke t.tcb, .delete t.tcb, .revoke t.cnode, .delete t.cnode]
  | .ok _ =>
  match env.delete_res t.ep with
  | .err _ => .aborted [.revoke t.tcb, .delete t.tcb, .revoke t.cnode, .delete t.cnode,
      .revoke t.ep]
  | .ok _ =>
  match env.revoke_res t.ipc_buffer with
  | .err _ => .aborted [.revoke t.tcb, .delete t.tcb, .revoke t.cnode, .delete t.cnode,
      .revoke t.ep, .delete t.ep]
  | .ok _ =>
  match env.delete_res t.ipc_buffer with
  | .err _ => .aborted [.revoke t.tcb, .delete t.tcb, .revoke t.cnode, .delete t.cnode,
      .revoke t.ep, .delete t.ep, .revoke t.ipc_buffer]
  | .ok _ =>
    .done [.revoke t.tcb, .delete t.tcb, .revoke t.cnode, .delete t.cnode,
      .revoke t.ep, .delete t.ep, .revoke t.ipc_buffer, .delete t.ipc_buffer,
      .recycleSlot t.tcb, .recycleSlot t.cnode, .recycleSlot t.ep,
      .recycleSlot t.ipc_buffer, .deallocIpcBuffer (t.ipc_buffer_addr / PAGE_SIZE),
      .recycleUntyped t.untyped]

/-- Returns `true` iff the kernel call failed. -/
def KRes.isErr {α : Type} : KRes α → Bool
  | .err _ => true
  | .ok _ => false

/-!
## Theorems

### Virtual frame allocator
-/

lemma VirtFrameAllocator.inv_new (base size : Nat) :
    VirtFrameAllocator.Inv (VirtFrameAllocator.new base size) :=
  ⟨List.nodup_nil, by intro v hv; simp [VirtFrameAllocator.new] at hv⟩

lemma VirtFrameAllocator.inv_alloc {a : VirtFrameAllocator}
    (h : VirtFrameAllocator.Inv a) : VirtFrameAllocator.Inv a.alloc.2 := by
  unfold VirtFrameAllocator.alloc
  split
  · match hr : a.recycled with
    | [] => simpa [hr] using h
    | vpn :: rest =>
      refine ⟨(hr ▸ h.1).of_cons, ?_⟩
      intro v hv
      exact h.2 v (by simp [hr, hv])
  · exact ⟨h.1, fun v hv => Nat.lt_succ_of_lt (h.2 v hv)⟩

lemma VirtFrameAllocator.inv_dealloc {a : VirtFrameAllocator} (vpn : Nat)
    (h : VirtFrameAllocator.Inv a) : VirtFrameAllocator.Inv (a.dealloc vpn) := by
  unfold VirtFrameAllocator.dealloc
  split
  case isTrue hc =>
    refine ⟨List.nodup_cons.mpr ⟨hc.2, h.1⟩, ?_⟩
    intro v hv
    rcases List.mem_cons.mp hv with h1 | h2
    · exact h1 ▸ hc.1
    · exact h.2 v h2
  case isFalse => exact h

lemma VirtFrameAllocator.dealloc_id {a : VirtFrameAllocator} {vpn : Nat}
    (h : a.current ≤ vpn ∨ vpn ∈ a.recycled) : a.dealloc vpn = a := by
  unfold VirtFrameAllocator.dealloc
  rcases h with h1 | h2
  · rw [if_neg]; intro hc; exact absurd hc.1 (Nat.not_lt.mpr h1)
  · rw [if_neg]; intro hc; exact hc.2 h2

/-- C10: in every reachable `VirtFrameAllocator` state the recycled list has
no duplicates and no entry ≥ `current`, and `dealloc vpn` is a no-op whenever
`vpn ≥ current` or `vpn` is already recycled; the invariant is preserved by
every `alloc` and `dealloc` step from `new`. -/
theorem reachable_inv (a : VirtFrameAllocator)
    (h : VirtFrameAllocator.Reachable a) :
    VirtFrameAllocator.Inv a ∧
      ∀ vpn, a.current ≤ vpn ∨ vpn ∈ a.recycled → a.dealloc vpn = a := by
  refine ⟨?_, fun vpn hv => VirtFrameAllocator.dealloc_id hv⟩
  induction h with
  | init base size => exact VirtFrameAllocator.inv_new base size
  | step_alloc _ ih => exact VirtFrameAllocator.inv_alloc ih
  | step_dealloc vpn _ ih => exact VirtFrameAllocator.inv_dealloc vpn ih

/-- Witness for C10: the invariant at a concrete reachable state (one page
allocated then deallocated out of a four-page range). -/
theorem reachable_inv_witness :
    VirtFrameAllocator.Inv
      (((VirtFrameAllocator.new 0 (4 * PAGE_SIZE)).alloc.2).dealloc 0) :=
  (reachable_inv _ (VirtFrameAllocator.Reachable.step_dealloc 0
    (VirtFrameAllocator.Reachable.step_alloc
      (VirtFrameAllocator.Reachable.init 0 (4 * PAGE_SIZE))))).1

/-- C7: when the monotonic counter has reached the end of the reserved range
and the recycled list is empty, `alloc` returns `none` and leaves the state
unchanged. -/
theorem alloc_exhausted_none (a : VirtFrameAllocator)
    (h1 : a.current = a.end_) (h2 : a.recycled = []) :
    a.alloc.1 = none ∧ a.alloc.2 = a := by
  simp [VirtFrameAllocator.alloc, h1, h2]

/-- Witness for C7: a fully allocated four-page range with nothing
recycled. -/
theorem alloc_exhausted_none_witness :
    (VirtFrameAllocator.alloc ⟨4, 4, []⟩).1 = none ∧
      (VirtFrameAllocator.alloc ⟨4, 4, []⟩).2 = (⟨4, 4, []⟩ : VirtFrameAllocator) :=
  alloc_exhausted_none ⟨4, 4, []⟩ rfl rfl

/-- Counterexample to C4: from a fresh ten-page range, allocate pages 0, 1
and 2, deallocate page 1, and allocate again: the allocator returns the
counter value 3, not the just-recycled page 1, because `alloc` only consults
the recycled list once `current` has reached the range end. -/
theorem alloc_bump_before_recycle :
    ((((VirtFrameAllocator.new 0
        (10 * PAGE_SIZE)).alloc.2.alloc.2.alloc.2.dealloc 1).alloc).1 = some 3) ∧
    ((((VirtFrameAllocator.new 0
        (10 * PAGE_SIZE)).alloc.2.alloc.2.alloc.2.dealloc 1).alloc).1 ≠ some 1) := by
  decide

/-- C4 (amended): `alloc` advances the monotonic counter first and consults
the recycled list (LIFO: last pushed popped first) only when the counter has
reached the range end.  Hence, after `dealloc p` on a state where `p` is a
live page, the immediately following `alloc` returns `p` exactly when
`current = end`, and returns the counter value otherwise. -/
theorem alloc_after_dealloc (a : VirtFrameAllocator) (p : Nat)
    (hp : p < a.current) (hnr : p ∉ a.recycled) :
    (a.current = a.end_ → ((a.dealloc p).alloc).1 = some p) ∧
    (a.current ≠ a.end_ → ((a.dealloc p).alloc).1 = some a.current) := by
  have hd : a.dealloc p = { a with recycled := p :: a.recycled } := by
    simp [VirtFrameAllocator.dealloc, hp, hnr]
  constructor
  · intro he
    rw [hd]
    simp [VirtFrameAllocator.alloc, he]
  · intro he
    rw [hd]
    simp [VirtFrameAllocator.alloc, he]

/-- Witness for C4 (amended): an exhausted four-page range where page 1 is
deallocated and then immediately returned by the next `alloc`. -/
theorem alloc_after_dealloc_witness :
    ((VirtFrameAllocator.dealloc ⟨4, 4, [2]⟩ 1).alloc).1 = some 1 :=
  (alloc_after_dealloc ⟨4, 4, [2]⟩ 1 (by decide) (by decide)).1 rfl

/-!
### Untyped pool
-/

/-- C8: `alloc_untyped_unit` always returns size exactly 2 MiB; it pops the
recycle free list (LIFO) when non-empty, and asks the object factory for a
fresh unit only when the list is empty; a unit just recycled is the next one
handed out. -/
theorem alloc_untyped_unit_spec (pool : UntypedPool) (fresh u : Nat) :
    ((alloc_untyped_unit pool fresh).1.2 = 0x200000) ∧
    (∀ c rest, pool.recycled_untyped = c :: rest →
      alloc_untyped_unit pool fresh = ((c, 0x200000), ⟨rest⟩)) ∧
    (pool.recycled_untyped = [] →
      alloc_untyped_unit pool fresh = ((fresh, 0x200000), pool)) ∧
    ((alloc_untyped_unit (recycle_untyped_unit pool u) fresh).1.1 = u) := by
  refine ⟨?_, ?_, ?_, ?_⟩
  · match h : pool.recycled_untyped with
    | c :: rest => simp [alloc_untyped_unit, h, ALLOC_SIZE_BITS]
    | [] => simp [alloc_untyped_unit, h, ALLOC_SIZE_BITS]
  · intro c rest h
    simp [alloc_untyped_unit, h, ALLOC_SIZE_BITS]
  · intro h
    simp [alloc_untyped_unit, h, ALLOC_SIZE_BITS]
  · simp [alloc_untyped_unit, recycle_untyped_unit]

/-- Witness for C8: a pool with recycled units 5 (most recent) and 6 hands
out unit 5 with size 2 MiB, ignoring the factory's fresh unit 9. -/
theorem alloc_untyped_unit_spec_witness :
    alloc_untyped_unit ⟨[5, 6]⟩ 9 = ((5, 0x200000), ⟨[6]⟩) :=
  (alloc_untyped_unit_spec ⟨[5, 6]⟩ 9 0).2.1 5 [6] rfl

/-!
### Memory space region map
-/

lemma btreeGet_cons {α : Type} (k' : Nat) (v' : α) (l : List (Nat × α)) (k : Nat) :
    btreeGet ((k', v') :: l) k = if k' = k then some v' else btreeGet l k := by
  by_cases h : k' = k
  · simp [btreeGet, List.find?_cons_of_pos, h]
  · rw [if_neg h]
    unfold btreeGet
    rw [List.find?_cons_of_neg]
    simp [h]

lemma btreeGet_insert_self {α : Type} (k : Nat) (v : α) (m : List (Nat × α)) :
    btreeGet (btreeInsert k v m) k = some v := by
  induction m with
  | nil => simp [btreeInsert, btreeGet_cons]
  | cons p rest ih =>
    obtain ⟨k', v'⟩ := p
    by_cases h1 : k < k'
    · simp [btreeInsert, h1, btreeGet_cons]
    · by_cases h2 : k = k'
      · simp [btreeInsert, h1, h2, btreeGet_cons]
      · have hne : k' ≠ k := fun h => h2 h.symm
        simp [btreeInsert, h1, h2, btreeGet_cons, hne, ih]

lemma btreeInsert_length_of_get_none {α : Type} (k : Nat) (v : α)
    (m : List (Nat × α)) (h : btreeGet m k = none) :
    (btreeInsert k v m).length = m.length + 1 := by
  induction m with
  | nil => simp [btreeInsert]
  | cons p rest ih =>
    obtain ⟨k', v'⟩ := p
    rw [btreeGet_cons] at h
    by_cases h2 : k' = k
    · rw [if_pos h2] at h
      exact absurd h (by simp)
    · rw [if_neg h2] at h
      have h3 : ¬ k = k' := fun hh => h2 hh.symm
      by_cases h1 : k < k'
      · simp [btreeInsert, h1]
      · simp [btreeInsert, h1, h3, ih h]

lemma LARGE_PAGE_SIZE_pos : 0 < LARGE_PAGE_SIZE := by norm_num [LARGE_PAGE_SIZE]

/-- Counterexample to C1: mapping `size = 2·2MiB` at the aligned address
`0x200000` records exactly ONE region entry (the combined span), not two. -/
theorem map_area_two_pages_one_entry :
    MemSpace.map_area [] 0x200000 0x400000 0x800000 =
      some [(0x200000, (0x800000, 0xC00000))] ∧
    (MemSpace.map_area [] 0x200000 0x400000 0x800000).map List.length = some 1 ∧
    (1 : Nat) ≠ 2 := by
  refine ⟨?_, ?_, by decide⟩ <;> rfl

/-- C1 (amended): for a 2 MiB-aligned `vaddr` not already mapped and
`size = k·2MiB` with `k ≥ 1`, `map_area(vaddr, size)` maps `k` large pages
but records exactly ONE new region entry, anchored at `vaddr` and spanning
the whole extent: it maps `[vaddr, vaddr+size)` to
`[paddr, paddr+size)` where `paddr` is the first page's physical address. -/
theorem map_area_single_entry (regions : Regions) (vaddr k paddr : Nat)
    (hal : vaddr % LARGE_PAGE_SIZE = 0) (hk : 0 < k)
    (hfresh : btreeGet regions vaddr = none) :
    MemSpace.map_area regions vaddr (k * LARGE_PAGE_SIZE) paddr =
      some (btreeInsert vaddr (paddr, paddr + k * LARGE_PAGE_SIZE) regions) ∧
    (btreeInsert vaddr (paddr, paddr + k * LARGE_PAGE_SIZE) regions).length =
      regions.length + 1 ∧
    btreeGet (btreeInsert vaddr (paddr, paddr + k * LARGE_PAGE_SIZE) regions)
      vaddr = some (paddr, paddr + k * LARGE_PAGE_SIZE) := by
  have hL := LARGE_PAGE_SIZE_pos
  have hdiv : k * LARGE_PAGE_SIZE / LARGE_PAGE_SIZE = k := Nat.mul_div_cancel k hL
  refine ⟨?_, btreeInsert_length_of_get_none _ _ _ hfresh,
    btreeGet_insert_self _ _ _⟩
  unfold MemSpace.map_area MemSpace.add_region
  rw [hdiv, if_pos ⟨hal, Nat.mul_pos hk hL, hk⟩]

/-- Witness for C1 (amended): a single-page mapping at address 0 over an
empty region map. -/
theorem map_area_single_entry_witness :
    MemSpace.map_area [] 0 (1 * LARGE_PAGE_SIZE) 0x800000 =
      some (btreeInsert 0 (0x800000, 0x800000 + 1 * LARGE_PAGE_SIZE) []) ∧
    (btreeInsert 0 ((0x800000 : Nat), 0x800000 + 1 * LARGE_PAGE_SIZE)
      ([] : Regions)).length = ([] : Regions).length + 1 ∧
    btreeGet (btreeInsert 0 ((0x800000 : Nat), 0x800000 + 1 * LARGE_PAGE_SIZE)
      ([] : Regions)) 0 = some (0x800000, 0x800000 + 1 * LARGE_PAGE_SIZE) :=
  map_area_single_entry [] 0 1 0x800000 (by decide) (by decide) rfl

/-- Counterexample to C2: map `2·2MiB` at `vaddr = 0x200000` with first-page
physical address `0x400000`.  The address `a = 0x400000` lies inside the
mapped virtual span `[0x200000, 0x600000)`, but its 2 MiB floor `0x400000`
is not a region key, so `virt_to_phys` falls back to identity; `phys_to_virt`
then finds `0x400000` inside the region's physical range and returns
`0x200000 ≠ a`: the round trip fails on an address produced by a prior
mapping. -/
theorem round_trip_failure :
    MemSpace.map_area [] 0x200000 0x400000 0x400000 =
      some [(0x200000, (0x400000, 0x800000))] ∧
    (0x200000 : Nat) ≤ 0x400000 ∧ (0x400000 : Nat) < 0x200000 + 0x400000 ∧
    MemSpace.virt_to_phys [(0x200000, (0x400000, 0x800000))] 0x400000 =
      0x400000 ∧
    MemSpace.phys_to_virt [(0x200000, (0x400000, 0x800000))]
      (MemSpace.virt_to_phys [(0x200000, (0x400000, 0x800000))] 0x400000) =
      0x200000 ∧
    (0x200000 : Nat) ≠ 0x400000 := by
  refine ⟨rfl, by decide, by decide, rfl, rfl, by decide⟩

/-- C2 (amended): the translation round trip
`phys_to_virt (virt_to_phys a) = a` holds for every address `a` within the
FIRST 2 MiB large page of a mapped area (hence for every address of an area
mapped with size exactly 2 MiB): for the region map produced by
`map_area(vaddr, k·2MiB)` on an empty map, every
`a ∈ [vaddr, vaddr + 2MiB)` round-trips.  Addresses beyond the first large
page of a multi-page area miss the exact-key lookup and need not round-trip
(see the counterexample). -/
theorem round_trip_first_page (vaddr k paddr a : Nat) (rs : Regions)
    (hal : vaddr % LARGE_PAGE_SIZE = 0) (hk : 0 < k)
    (hrs : MemSpace.map_area [] vaddr (k * LARGE_PAGE_SIZE) paddr = some rs)
    (ha1 : vaddr ≤ a) (ha2 : a < vaddr + LARGE_PAGE_SIZE) :
    MemSpace.phys_to_virt rs (MemSpace.virt_to_phys rs a) = a := by
  have hL := LARGE_PAGE_SIZE_pos
  have hdiv : k * LARGE_PAGE_SIZE / LARGE_PAGE_SIZE = k := Nat.mul_div_cancel k hL
  have hrs' : rs = [(vaddr, (paddr, paddr + k * LARGE_PAGE_SIZE))] := by
    unfold MemSpace.map_area MemSpace.add_region at hrs
    rw [hdiv, if_pos ⟨hal, Nat.mul_pos hk hL, hk⟩] at hrs
    simpa [btreeInsert] using hrs.symm
  subst hrs'
  obtain ⟨q, hq⟩ : LARGE_PAGE_SIZE ∣ vaddr := Nat.dvd_of_mod_eq_zero hal
  have e1 : q * LARGE_PAGE_SIZE = vaddr := by rw [Nat.mul_comm]; exact hq.symm
  have hdiv_a : a / LARGE_PAGE_SIZE = q :=
    Nat.div_eq_of_lt_le (e1 ▸ ha1) (by rw [Nat.succ_mul, e1]; exact ha2)
  have hfloor : a / LARGE_PAGE_SIZE * LARGE_PAGE_SIZE = vaddr := by
    rw [hdiv_a, e1]
  have hv2p : MemSpace.virt_to_phys
      [(vaddr, (paddr, paddr + k * LARGE_PAGE_SIZE))] a = paddr + (a - vaddr) := by
    unfold MemSpace.virt_to_phys
    rw [hfloor]
    simp [btreeGet_cons]
  rw [hv2p]
  have hle : paddr ≤ paddr + (a - vaddr) := Nat.le_add_right _ _
  have hlpk : LARGE_PAGE_SIZE ≤ k * LARGE_PAGE_SIZE :=
    Nat.le_mul_of_pos_left LARGE_PAGE_SIZE hk
  have hlt : paddr + (a - vaddr) < paddr + k * LARGE_PAGE_SIZE := by omega
  unfold MemSpace.phys_to_virt
  rw [List.find?_cons_of_pos _ (by simp [hle, hlt])]
  simp only []
  omega

/-- Witness for C2 (amended): the address `0x300000` in the first large page
of a two-page mapping at `0x200000` round-trips. -/
theorem round_trip_first_page_witness :
    MemSpace.phys_to_virt [(0x200000, (0x400000, 0x800000))]
      (MemSpace.virt_to_phys [(0x200000, (0x400000, 0x800000))] 0x300000) =
      0x300000 :=
  round_trip_first_page 0x200000 2 0x400000 0x300000
    [(0x200000, (0x400000, 0x800000))] (by decide) (by decide) rfl
    (by decide) (by decide)

/-!
### Interrupt registry
-/

/-- Counterexample to C5: on the freshly constructed registry, whose global
enable flag is `false`, `set_enable(33, true)` still performs the full
registration — a notification record and an interrupt-handler record for
IRQ 33 are created — because `IrqIfImpl::set_enable` never consults the
flag. -/
theorem set_enable_ignores_disabled_flag :
    IrqCap.new.enable = false ∧
    set_enable IrqCap.new 33 true
        ⟨100, 101, .ok (), .ok (), .ok ()⟩ =
      .ok { enable := false, irq_handlers := [(33, 101)],
            notifications := [(33, 100)] } ∧
    btreeGet [((33 : Nat), (101 : Nat))] 33 = some 101 := by
  refine ⟨rfl, rfl, rfl⟩

/-- C5 (amended): the global enable flag does not gate registration:
`set_enable(irq, true)` invokes `register_sel4_irq(irq)` unconditionally on
any state (flag up or down), creating both per-IRQ records, and leaves the
flag itself untouched; `set_enable(irq, false)` performs no registration and
changes nothing (it only logs a warning). -/
theorem set_enable_unconditional (st : IrqCap) (irq : Nat) (env : IrqEnv)
    (hmint : env.mint_res = .ok ()) (hsetn : env.set_notification_res = .ok ())
    (hack : env.ack_res = .ok ()) :
    set_enable st irq true env =
      .ok { st with
            notifications := btreeInsert irq env.notify_slot st.notifications
            irq_handlers := btreeInsert irq env.handler_slot st.irq_handlers } ∧
    set_enable st irq false env = .ok st := by
  constructor
  · simp [set_enable, IrqCap.register_sel4_irq, hmint, hsetn, hack]
  · simp [set_enable]

/-- Witness for C5 (amended): registration of IRQ 7 on a disabled-flag state
with an occupied unrelated slot. -/
theorem set_enable_unconditional_witness :
    set_enable ⟨false, [(3, 50)], [(3, 51)]⟩ 7 true
        ⟨60, 61, .ok (), .ok (), .ok ()⟩ =
      .ok { enable := false,
            notifications := btreeInsert 7 60 [(3, 51)]
            irq_handlers := btreeInsert 7 61 [(3, 50)] } ∧
    set_enable ⟨false, [(3, 50)], [(3, 51)]⟩ 7 false
        ⟨60, 61, .ok (), .ok (), .ok ()⟩ =
      .ok ⟨false, [(3, 50)], [(3, 51)]⟩ :=
  set_enable_unconditional ⟨false, [(3, 50)], [(3, 51)]⟩ 7
    ⟨60, 61, .ok (), .ok (), .ok ()⟩ rfl rfl rfl

/-- C9: `IrqIfImpl::register(irq, handler)` on an occupied handler-table slot
returns `false` and leaves the table (hence the first handler) and the
capability records unchanged; on an unoccupied in-bounds slot it installs the
handler, performs the seL4 registration (the interrupt capability is
enabled: mint, bind, acknowledge, both records created) and returns
`true`. -/
theorem register_if_spec (table : List (Nat × Nat)) (st : IrqCap)
    (irq handler h0 : Nat) (env : IrqEnv)
    (hmint : env.mint_res = .ok ()) (hsetn : env.set_notification_res = .ok ())
    (hack : env.ack_res = .ok ()) :
    (btreeGet table irq = some h0 →
      register table st irq handler env = .ok (false, table, st)) ∧
    (btreeGet table irq = none → irq < MAX_IRQ_COUNT →
      register table st irq handler env =
        .ok (true, btreeInsert irq handler table,
          { st with
            notifications := btreeInsert irq env.notify_slot st.notifications
            irq_handlers := btreeInsert irq env.handler_slot st.irq_handlers })) := by
  constructor
  · intro hocc
    have : ¬ (irq < MAX_IRQ_COUNT ∧ btreeGet table irq = none) := by
      rintro ⟨-, hn⟩
      rw [hocc] at hn
      exact Option.noConfusion hn
    simp [register, register_handler, this]
  · intro hnone hlt
    simp [register, register_handler, hnone, hlt,
      IrqCap.register_sel4_irq, hmint, hsetn, hack]

/-- Witness for C9: a second registration of IRQ 4 fails and leaves handler
70 in place; a first registration of IRQ 9 succeeds and installs handler
71. -/
theorem register_if_spec_witness :
    register [(4, 70)] IrqCap.new 4 99 ⟨80, 81, .ok (), .ok (), .ok ()⟩ =
      .ok (false, [(4, 70)], IrqCap.new) ∧
    register [(4, 70)] IrqCap.new 9 71 ⟨80, 81, .ok (), .ok (), .ok ()⟩ =
      .ok (true, btreeInsert 9 71 [(4, 70)],
        { IrqCap.new with
          notifications := btreeInsert 9 80 IrqCap.new.notifications
          irq_handlers := btreeInsert 9 81 IrqCap.new.irq_handlers }) :=
  ⟨(register_if_spec [(4, 70)] IrqCap.new 4 99 70
      ⟨80, 81, .ok (), .ok (), .ok ()⟩ rfl rfl rfl).1 rfl,
   (register_if_spec [(4, 70)] IrqCap.new 9 71 0
      ⟨80, 81, .ok (), .ok (), .ok ()⟩ rfl rfl rfl).2 rfl (by decide)⟩

/-!
### Task lifecycle
-/

/-- Counterexample to C3: when the kernel fails the IPC-buffer allocation
(step 8, explicitly covered by the claim) with all other calls succeeding,
`Sel4Task::new` aborts the process (the `.unwrap()` panics) instead of
returning the error to the caller. -/
theorem new_ipc_failure_panics :
    Sel4Task.new 1 0x1000 0x2000 100 0
        { untyped := 10, cnode := 11, tcb := 12, srv_ep := 13,
          copy_tcb_res := .ok (), mint_parent_res := .ok (),
          copy_srv_res := .ok (), alloc_ipc_res := .err 3,
          configure_res := .ok (), set_tls_res := .ok (),
          set_sched_res := .ok (), read_regs_res := .ok ⟨0, 0, 0⟩,
          write_regs_res := .ok () } = .panic := by
  rfl

/-- C3 (amended): `Sel4Task::new` propagates to the caller, as an error
value, exactly the kernel failures of steps 5–7 (copying the TCB into the
task's namespace, minting the parent endpoint, copying the server endpoint —
the calls using `?`); a kernel failure in steps 8–12 (IPC-buffer allocation,
TCB configuration, TLS base, scheduling parameters, register-file read or
write-back — the calls using `.unwrap()`) aborts the process. -/
theorem new_error_policy (tid entry stack priority tls : Nat) (env : NewEnv) :
    (∀ e, Sel4Task.new tid entry stack priority tls env = .err e ↔
      env.copy_tcb_res = .err e ∨
      (env.copy_tcb_res = .ok () ∧ env.mint_parent_res = .err e) ∨
      (env.copy_tcb_res = .ok () ∧ env.mint_parent_res = .ok () ∧
        env.copy_srv_res = .err e)) ∧
    (Sel4Task.new tid entry stack priority tls env = .panic ↔
      env.copy_tcb_res = .ok () ∧ env.mint_parent_res = .ok () ∧
      env.copy_srv_res = .ok () ∧
      (env.alloc_ipc_res.isErr = true ∨ env.configure_res.isErr = true ∨
       env.set_tls_res.isErr = true ∨ env.set_sched_res.isErr = true ∨
       env.read_regs_res.isErr = true ∨ env.write_regs_res.isErr = true)) := by
  obtain ⟨u, c, t, s, r5, r6, r7, r8, r9, r10, r11, r12, r13⟩ := env
  cases r5 <;> cases r6 <;> cases r7 <;> cases r8 <;> cases r9 <;>
    cases r10 <;> cases r11 <;> cases r12 <;> cases r13 <;>
    simp [Sel4Task.new, KRes.isErr]

/-- Witness for C3 (amended): a failed mint of the parent endpoint (step 6,
error code 5) is returned to the caller as `err 5`. -/
theorem new_error_policy_witness :
    Sel4Task.new 1 0x1000 0x2000 100 0
        { untyped := 10, cnode := 11, tcb := 12, srv_ep := 13,
          copy_tcb_res := .ok (), mint_parent_res := .err 5,
          copy_srv_res := .ok (), alloc_ipc_res := .ok (0x3000, 14),
          configure_res := .ok (), set_tls_res := .ok (),
          set_sched_res := .ok (), read_regs_res := .ok ⟨0, 0, 0⟩,
          write_regs_res := .ok () } = .err 5 :=
  ((new_error_policy 1 0x1000 0x2000 100 0
      { untyped := 10, cnode := 11, tcb := 12, srv_ep := 13,
        copy_tcb_res := .ok (), mint_parent_res := .err 5,
        copy_srv_res := .ok (), alloc_ipc_res := .ok (0x3000, 14),
        configure_res := .ok (), set_tls_res := .ok (),
        set_sched_res := .ok (), read_regs_res := .ok ⟨0, 0, 0⟩,
        write_regs_res := .ok () }).1 5).mpr (Or.inr (Or.inl ⟨rfl, rfl⟩))

/-- C6: when every kernel call succeeds, `Sel4Task::exit` performs, in this
exact order: revoke-then-delete of the thread, namespace, endpoint and
IPC-buffer capabilities, then the release of the four capability slots, the
return of the IPC-buffer virtual page (`ipc_buffer_addr / PAGE_SIZE`) to the
virtual frame allocator, and the return of the untyped unit to the pool;
and the full sequence completes ONLY when all eight revoke/delete calls
succeed — any kernel error there aborts the process. -/
theorem exit_policy (t : Sel4Task) (env : ExitEnv) :
    (env.revoke_res t.tcb = .ok () → env.delete_res t.tcb = .ok () →
     env.revoke_res t.cnode = .ok () → env.delete_res t.cnode = .ok () →
     env.revoke_res t.ep = .ok () → env.delete_res t.ep = .ok () →
     env.revoke_res t.ipc_buffer = .ok () → env.delete_res t.ipc_buffer = .ok () →
      t.exit env = .done
        [.revoke t.tcb, .delete t.tcb, .revoke t.cnode, .delete t.cnode,
         .revoke t.ep, .delete t.ep, .revoke t.ipc_buffer, .delete t.ipc_buffer,
         .recycleSlot t.tcb, .recycleSlot t.cnode, .recycleSlot t.ep,
         .recycleSlot t.ipc_buffer,
         .deallocIpcBuffer (t.ipc_buffer_addr / PAGE_SIZE),
         .recycleUntyped t.untyped]) ∧
    (∀ tr, t.exit env = .done tr →
      env.revoke_res t.tcb = .ok () ∧ env.delete_res t.tcb = .ok () ∧
      env.revoke_res t.cnode = .ok () ∧ env.delete_res t.cnode = .ok () ∧
      env.revoke_res t.ep = .ok () ∧ env.delete_res t.ep = .ok () ∧
      env.revoke_res t.ipc_buffer = .ok () ∧
      env.delete_res t.ipc_buffer = .ok ()) := by
  constructor
  · intro h1 h2 h3 h4 h5 h6 h7 h8
    simp [Sel4Task.exit, h1, h2, h3, h4, h5, h6, h7, h8]
  · intro tr h
    unfold Sel4Task.exit at h
    repeat' split at h
    all_goals simp_all

/-- Witness for C6: a concrete task (tcb 1, cnode 2, ep 3, untyped 4,
IPC-buffer cap 5 at address `0x6000`) destroyed under an always-succeeding
kernel produces exactly the specified fourteen-action sequence. -/
theorem exit_policy_witness :
    Sel4Task.exit ⟨1, 2, 3, 0x8000, 0x9000, 4, 5, 0x6000, 7⟩
        ⟨fun _ => .ok (), fun _ => .ok ()⟩ =
      .done [.revoke 1, .delete 1, .revoke 2, .delete 2, .revoke 3, .delete 3,
        .revoke 5, .delete 5, .recycleSlot 1, .recycleSlot 2, .recycleSlot 3,
        .recycleSlot 5, .deallocIpcBuffer (0x6000 / PAGE_SIZE),
        .recycleUntyped 4] :=
  (exit_policy ⟨1, 2, 3, 0x8000, 0x9000, 4, 5, 0x6000, 7⟩
      ⟨fun _ => .ok (), fun _ => .ok ()⟩).1
    rfl rfl rfl rfl rfl rfl rfl rfl
